import Mathlib

/-!
Shallow embedding of `packages/angular_devkit/build_angular/src/browser/index.ts`
(the Angular CLI browser-build orchestrator) and proofs about it.

The file models:
  * the build options record (`BrowserBuilderSchema` fields used here);
  * the builder context (workspace root, optional target, builder info, analytics);
  * webpack configuration fragments as an inductive type whose constructors stand
    for the external fragment providers (pure functions per the collaborator
    contracts), plus the two fragment functions defined in the file itself
    (`getAnalyticsConfig`, `getCompilerConfig`);
  * the logging callback `createBrowserLoggingCallback` as a function from a
    stats object to the list of emitted log entries, in an `Except` monad so
    that absence of thrown failures is a statable property;
  * the rxjs pipeline of `buildWebpackBrowser` as a sequential function over an
    environment recording the outcomes of the external effects (workspace read,
    output-dir deletion, the concurrent `runWebpack` invocations, the
    service-worker augmentation), returning the outcome (emitted result or
    propagated error) together with a trace of the observable side effects.

JavaScript truthiness of optional strings (`undefined` and `""` are falsy) is
modelled by `strOptTruthy`; `x || d` on strings by `jsStrOr`.
-/

namespace AngularBrowser

/-- JS truthiness for an optional string: `undefined` and `""` are falsy. -/
def strOptTruthy : Option String → Bool
  | none => false
  | some s => !(s == "")

/-- JS `x || d` for an optional string: falsy (`undefined` or `""`) falls back to `d`. -/
def jsStrOr (x : Option String) (d : String) : String :=
  match x with
  | none => d
  | some s => if s == "" then d else s

/-- Path normalization from `@angular-devkit/core` (external). On the
already-normalized POSIX paths threaded through this file it is the identity;
no claim depends on its internals. -/
def normalizeP (p : String) : String := p

/-- Whether a POSIX path is absolute: it starts with a slash. -/
def isAbsolute (p : String) : Bool :=
  match p.data with
  | [] => false
  | c :: _ => c == '/'

/-- Resolution of a path against a root, as done by `resolve` from
`@angular-devkit/core` (external): an absolute second argument wins, otherwise
it is joined onto the root. -/
def resolvePath (a b : String) : String :=
  if isAbsolute b then b else a ++ "/" ++ b

/-- Node `path.resolve(a, b)` restricted to the two-argument form used in the
source: an absolute second argument wins, otherwise it is joined onto the root. -/
def pathResolve (a b : String) : String :=
  if isAbsolute b then b else a ++ "/" ++ b

/-- The fields of the browser builder options (`BrowserBuilderSchema`) that the
orchestrator reads. Optional strings model fields that may be `undefined`. -/
structure BuildOptions where
  outputPath : String
  verbose : Bool
  watch : Bool
  serviceWorker : Bool
  deleteOutputPath : Bool
  baseHref : Option String
  ngswConfigPath : Option String
  aot : Bool
  main : Option String
  polyfills : Option String
  webWorkerTsConfig : Option String
  deriving DecidableEq

/-- An analytics sink (`context.analytics`), opaque to this file. -/
structure Analytics where
  id : Nat
  deriving DecidableEq

/-- The target recorded in the builder context (`context.target`). -/
structure Target where
  project : String
  deriving DecidableEq

/-- Builder metadata (`context.builder`). -/
structure BuilderInfo where
  builderName : String
  deriving DecidableEq

/-- The builder context fields read by this file. -/
structure BuilderContext where
  workspaceRoot : String
  target : Option Target
  builder : Option BuilderInfo
  analytics : Option Analytics
  deriving DecidableEq

/-- The experimental workspace object returned by the configuration step:
root path, default project name (`getDefaultProjectName`, may be null), and the
per-project root lookup (`getProject(name).root`). -/
structure Workspace where
  root : String
  defaultProjectName : Option String
  projectRoot : String → String

/-- The options handed to each fragment provider (`WebpackConfigOptions`):
the build options plus the resolved project root. -/
structure WebpackConfigOptions where
  buildOptions : BuildOptions
  projectRoot : String
  deriving DecidableEq

/-- The analytics plugin constructed by `getAnalyticsConfig`
(`new NgBuildAnalyticsPlugin(wco.projectRoot, context.analytics, category)`).
The category is `split(':')[1]` of the builder name, which in JS may be
`undefined` when the name has no colon, hence `Option String`. -/
structure NgBuildAnalyticsPlugin where
  projectRoot : String
  analytics : Analytics
  category : Option String
  deriving DecidableEq

/-- A webpack configuration fragment. The external fragment providers are pure
functions per the collaborator contracts, so each is modelled by an injective
constructor carrying its argument; `empty` is the literal `{}` fragment, and
`analyticsPlugins` is the `{ plugins: [...] }` object built by
`getAnalyticsConfig`. -/
inductive ConfigFragment where
  | empty
  | common (wco : WebpackConfigOptions)
  | browser (wco : WebpackConfigOptions)
  | styles (wco : WebpackConfigOptions)
  | stats (wco : WebpackConfigOptions)
  | analyticsPlugins (plugins : List NgBuildAnalyticsPlugin)
  | aot (wco : WebpackConfigOptions)
  | nonAot (wco : WebpackConfigOptions)
  | worker (wco : WebpackConfigOptions)
  deriving DecidableEq

/-- Modelled from the spec: external Config Fragment Provider `getCommonConfig`
(pure function `(buildOptions) -> partialConfig`, §6). -/
def getCommonConfig (wco : WebpackConfigOptions) : ConfigFragment := .common wco

/-- Modelled from the spec: external Config Fragment Provider `getBrowserConfig`. -/
def getBrowserConfig (wco : WebpackConfigOptions) : ConfigFragment := .browser wco

/-- Modelled from the spec: external Config Fragment Provider `getStylesConfig`. -/
def getStylesConfig (wco : WebpackConfigOptions) : ConfigFragment := .styles wco

/-- Modelled from the spec: external Config Fragment Provider `getStatsConfig`. -/
def getStatsConfig (wco : WebpackConfigOptions) : ConfigFragment := .stats wco

/-- Modelled from the spec: external Config Fragment Provider `getAotConfig`. -/
def getAotConfig (wco : WebpackConfigOptions) : ConfigFragment := .aot wco

/-- Modelled from the spec: external Config Fragment Provider `getNonAotConfig`. -/
def getNonAotConfig (wco : WebpackConfigOptions) : ConfigFragment := .nonAot wco

/-- Modelled from the spec: external Config Fragment Provider `getWorkerConfig`. -/
def getWorkerConfig (wco : WebpackConfigOptions) : ConfigFragment := .worker wco

/-- `getAnalyticsConfig` from the source: with an analytics sink present, build
the plugin fragment, deriving the category from the builder name when builder
metadata is present (`builderName.split(':')[1]`, defaulting to `'build'`);
without a sink, return the empty fragment. -/
def getAnalyticsConfig (wco : WebpackConfigOptions) (context : BuilderContext) :
    ConfigFragment :=
  match context.analytics with
  | some analytics =>
      let category : Option String :=
        match context.builder with
        | some b => (b.builderName.splitOn ":").get? 1
        | none => some "build"
      .analyticsPlugins [⟨wco.projectRoot, analytics, category⟩]
  | none => .empty

/-- `getCompilerConfig` from the source: when `main` or `polyfills` is truthy,
choose the AOT or non-AOT fragment by the `aot` flag; otherwise `{}`. -/
def getCompilerConfig (wco : WebpackConfigOptions) : ConfigFragment :=
  if strOptTruthy wco.buildOptions.main || strOptTruthy wco.buildOptions.polyfills then
    if wco.buildOptions.aot then getAotConfig wco else getNonAotConfig wco
  else
    ConfigFragment.empty

/-- The ordered fragment list assembled by the closure passed to
`generateBrowserWebpackConfigFromContext` inside
`buildBrowserWebpackConfigFromContext`. -/
def browserConfigFragments (context : BuilderContext) (wco : WebpackConfigOptions) :
    List ConfigFragment :=
  [ getCommonConfig wco,
    getBrowserConfig wco,
    getStylesConfig wco,
    getStatsConfig wco,
    getAnalyticsConfig wco context,
    getCompilerConfig wco,
    if strOptTruthy wco.buildOptions.webWorkerTsConfig then getWorkerConfig wco
    else ConfigFragment.empty ]

/-! ### Logging adapter -/

/-- The stats settings object (`config.stats`), opaque to this file. -/
structure StatsOptions where
  token : Nat
  deriving DecidableEq

/-- The JSON form of a stats object (`stats.toJson(...)`), opaque to this file. -/
structure StatsJson where
  token : Nat
  deriving DecidableEq

/-- The webpack stats object handed to the logging callback: its two rendering
methods and its warning/error indicators. Per the collaborator contracts these
methods are total. -/
structure WebpackStats where
  toJson : StatsOptions → StatsJson
  toStr : StatsOptions → String
  hasWarnings : Bool
  hasErrors : Bool

/-- The part of the webpack configuration that the logging callback reads:
its `stats` settings (added during `buildWebpackConfig`). -/
structure LoggingConfig where
  stats : StatsOptions

/-- Modelled from the spec: the external stats formatting helpers
`statsToString`, `statsWarningsToString`, `statsErrorsToString`
(pure functions from the stats JSON and the stats settings to text). -/
structure StatsFormatters where
  statsToString : StatsJson → StatsOptions → String
  statsWarningsToString : StatsJson → StatsOptions → String
  statsErrorsToString : StatsJson → StatsOptions → String

/-- Severity of a logger emission (`logger.info` / `logger.warn` / `logger.error`). -/
inductive LogLevel where
  | info
  | warn
  | error
  deriving DecidableEq

/-- One logger emission: its level and its text. -/
structure LogEntry where
  level : LogLevel
  message : String
  deriving DecidableEq

/-- `createBrowserLoggingCallback` from the source, with the logger modelled by
the returned list of emissions. The body is a statement-by-statement
translation inside `Except`: a thrown failure would surface as `Except.error`,
and the body introduces none. -/
def createBrowserLoggingCallback (fmts : StatsFormatters) (verbose : Bool) :
    WebpackStats → LoggingConfig → Except String (List LogEntry) :=
  fun stats config =>
    let json := stats.toJson config.stats
    let infoEntry : LogEntry :=
      if verbose then ⟨.info, stats.toStr config.stats⟩
      else ⟨.info, fmts.statsToString json config.stats⟩
    let warnEntries : List LogEntry :=
      if stats.hasWarnings then [⟨.warn, fmts.statsWarningsToString json config.stats⟩]
      else []
    let errorEntries : List LogEntry :=
      if stats.hasErrors then [⟨.error, fmts.statsErrorsToString json config.stats⟩]
      else []
    Except.ok (infoEntry :: (warnEntries ++ errorEntries))

/-- Whether an `Except` computation completed without a thrown failure. -/
def isOkE : Except String (List LogEntry) → Bool
  | .ok _ => true
  | .error _ => false

/-- The emissions of a given level, in order. -/
def atLevel (l : LogLevel) (entries : List LogEntry) : List LogEntry :=
  entries.filter fun e => e.level == l

/-! ### Build orchestrator -/

/-- An error propagated out of the orchestrator as a rejected operation. -/
inductive BuildError where
  | noProject
  | io (msg : String)
  deriving DecidableEq

/-- One build invocation's result (`BuildEvent`). -/
structure BuildEvent where
  success : Bool
  deriving DecidableEq

/-- The final record emitted by the orchestrator (`BrowserBuilderOutput`):
the success flag plus the resolved absolute output path. -/
structure BrowserBuilderOutput where
  success : Bool
  outputPath : String
  deriving DecidableEq

/-- The caller-supplied transform hooks of `buildWebpackBrowser`. -/
structure Transforms where
  config : Option (Workspace → List ConfigFragment → List ConfigFragment)
  output : Option (BrowserBuilderOutput → BrowserBuilderOutput)

/-- The transforms default `{}`: no hooks. -/
def Transforms.none : Transforms := ⟨Option.none, Option.none⟩

/-- Outcomes of the external effects the pipeline performs, fixed per
invocation: the workspace read during configuration, the number of
configuration variants the generator yields, the result of the output-dir
deletion, the result of the i-th concurrent `runWebpack` invocation, and
whether `augmentAppWithServiceWorker` resolves. -/
structure ExternalEnv where
  workspace : Workspace
  numVariants : Nat
  cleanResult : Except BuildError Unit
  runWebpack : Nat → BuildEvent
  swOk : Bool

/-- The arguments the service-worker augmenter is invoked with. -/
structure SwCall where
  root : String
  projectRoot : String
  outputPath : String
  baseHref : String
  ngswConfigPath : Option String
  deriving DecidableEq

/-- Observable side effects of one orchestrator invocation: whether the clean
step ran, how many configuration entries were assembled (none before the
configuration step succeeds), the collected build events (empty before the
compile stage runs), the aggregate success computed at the aggregation stage,
and the service-worker call issued, if any. -/
structure Trace where
  cleanInvoked : Bool
  configCount : Option Nat
  buildEvents : List BuildEvent
  aggregate : Option Bool
  swCall : Option SwCall
  deriving DecidableEq

/-- The orchestrator's result: a propagated (rejected) error or an emitted
final record. -/
inductive Outcome where
  | thrown (e : BuildError)
  | emitted (out : BrowserBuilderOutput)
  deriving DecidableEq

/-- Project-name resolution: the context target's project when a target is
present, otherwise the workspace default; a JS-falsy name (absent or `""`)
resolves to nothing. Used both by the configuration generator and by the
post-clean stage of the pipeline. -/
def resolveProjectName (context : BuilderContext) (workspace : Workspace) :
    Option String :=
  let n : Option String :=
    match context.target with
    | some t => some t.project
    | none => workspace.defaultProjectName
  if strOptTruthy n then n else none

/-- Modelled from the spec: `generateBrowserWebpackConfigFromContext`
(`src/utils/webpack-browser-config`, not under `src/`). Per §4.1 it fails with
the resolution error when the target project cannot be determined (no explicit
target and no default project), and otherwise produces the Configuration List,
one entry per compilation variant, each assembled by the supplied fragment
generator from the build options and the resolved project root. -/
def generateBrowserWebpackConfigFromContext (options : BuildOptions)
    (context : BuilderContext)
    (fragmentGenerator : WebpackConfigOptions → List ConfigFragment)
    (workspace : Workspace) (numVariants : Nat) :
    Except BuildError (Workspace × List (List ConfigFragment)) :=
  match resolveProjectName context workspace with
  | none => .error .noProject
  | some projectName =>
      let projectRoot :=
        resolvePath workspace.root (normalizeP (workspace.projectRoot projectName))
      .ok (workspace, List.replicate numVariants (fragmentGenerator ⟨options, projectRoot⟩))

/-- `buildBrowserWebpackConfigFromContext` from the source: delegate to the
generator with the browser fragment list. -/
def buildBrowserWebpackConfigFromContext (options : BuildOptions)
    (context : BuilderContext) (workspace : Workspace) (numVariants : Nat) :
    Except BuildError (Workspace × List (List ConfigFragment)) :=
  generateBrowserWebpackConfigFromContext options context
    (browserConfigFragments context) workspace numVariants

/-- The aggregation stage:
`map(buildEvents => ({ success: buildEvents.every(r => r.success) }))`. -/
def aggregateEvents (buildEvents : List BuildEvent) : BuildEvent :=
  ⟨buildEvents.all fun r => r.success⟩

/-- The emit stage's record: the event's success flag plus
`path.resolve(context.workspaceRoot, options.outputPath)`. -/
def mkOutput (success : Bool) (context : BuilderContext) (options : BuildOptions) :
    BrowserBuilderOutput :=
  ⟨success, pathResolve context.workspaceRoot options.outputPath⟩

/-- `concatMap(output => outputFn ? outputFn(output) : of(output))`. -/
def applyOutputTransform (transforms : Transforms) (out : BrowserBuilderOutput) :
    BrowserBuilderOutput :=
  match transforms.output with
  | some f => f out
  | none => out

/-- The final `switchMap` of the pipeline: re-resolve the project name (throwing
when it is falsy), run one `runWebpack` per configuration entry and join the
events, aggregate their success flags, conditionally run the service-worker
augmentation (its rejection caught and turned into `success: false`), and emit
the output record with the resolved output path, passed through the output
transform when one is supplied. The source's `buildEvents.length === 2` branch
is an unimplemented no-op stub and adds nothing here. -/
def compileAndEmit (options : BuildOptions) (context : BuilderContext)
    (transforms : Transforms) (env : ExternalEnv) (workspace : Workspace)
    (config : List (List ConfigFragment)) : Outcome × Trace :=
  match resolveProjectName context workspace with
  | none =>
      (.thrown .noProject,
       ⟨options.deleteOutputPath, some config.length, [], Option.none, Option.none⟩)
  | some projectName =>
      let projectRoot :=
        resolvePath workspace.root (normalizeP (workspace.projectRoot projectName))
      let buildEvents := (List.range config.length).map env.runWebpack
      let buildEvent := aggregateEvents buildEvents
      if buildEvent.success && !options.watch && options.serviceWorker then
        let root := normalizeP context.workspaceRoot
        let call : SwCall :=
          ⟨root, projectRoot, resolvePath root (normalizeP options.outputPath),
           jsStrOr options.baseHref "/", options.ngswConfigPath⟩
        (.emitted (applyOutputTransform transforms (mkOutput env.swOk context options)),
         ⟨options.deleteOutputPath, some config.length, buildEvents,
          some buildEvent.success, some call⟩)
      else
        (.emitted (applyOutputTransform transforms (mkOutput buildEvent.success context options)),
         ⟨options.deleteOutputPath, some config.length, buildEvents,
          some buildEvent.success, Option.none⟩)

/-- `buildWebpackBrowser` from the source, as the sequence of its pipeline
stages: configuration (which can throw), the optional per-entry config
transform, the conditional clean step (whose rejection propagates), then
`compileAndEmit`. -/
def buildWebpackBrowser (options : BuildOptions) (context : BuilderContext)
    (transforms : Transforms) (env : ExternalEnv) : Outcome × Trace :=
  match buildBrowserWebpackConfigFromContext options context env.workspace env.numVariants with
  | .error e => (.thrown e, ⟨false, Option.none, [], Option.none, Option.none⟩)
  | .ok (workspace, config0) =>
      let config :=
        match transforms.config with
        | some f => config0.map (f workspace)
        | none => config0
      match (if options.deleteOutputPath then env.cleanResult else Except.ok ()) with
      | .error e =>
          (.thrown e,
           ⟨options.deleteOutputPath, Option.none, [], Option.none, Option.none⟩)
      | .ok _ => compileAndEmit options context transforms env workspace config

/-! ### Concrete inputs used by the witnesses -/

/-- Concrete options with a main entry and AOT requested. -/
def wcoAot : WebpackConfigOptions :=
  ⟨⟨"dist", false, false, false, false, Option.none, Option.none, true,
    some "src/main.ts", Option.none, Option.none⟩, "/ws/app"⟩

/-- Concrete options with a polyfills entry and AOT not requested. -/
def wcoJit : WebpackConfigOptions :=
  ⟨⟨"dist", false, false, false, false, Option.none, Option.none, false,
    Option.none, some "src/polyfills.ts", Option.none⟩, "/ws/app"⟩

/-- Concrete options with neither main nor polyfills (an empty-string
polyfills entry is falsy), AOT requested. -/
def wcoBare : WebpackConfigOptions :=
  ⟨⟨"dist", false, false, false, false, Option.none, Option.none, true,
    Option.none, some "", Option.none⟩, "/ws/app"⟩

/-- A concrete context without an analytics sink. -/
def ctxNoSink : BuilderContext := ⟨"/ws", some ⟨"app"⟩, Option.none, Option.none⟩

/-- A concrete context without a target. -/
def ctxNoTarget : BuilderContext := ⟨"/ws", Option.none, Option.none, Option.none⟩

/-- A concrete workspace with a default project. -/
def wsW : Workspace := ⟨"/ws", some "app", fun _ => "app-root"⟩

/-- A concrete workspace without a default project. -/
def wsNoDefault : Workspace := ⟨"/ws", Option.none, fun _ => "app-root"⟩

/-- Concrete build options: one main entry, nothing else requested. -/
def optsPlain : BuildOptions :=
  ⟨"dist", false, false, false, false, Option.none, Option.none, false,
   some "src/main.ts", Option.none, Option.none⟩

/-- Concrete build options with output deletion requested. -/
def optsDel : BuildOptions :=
  ⟨"dist", false, false, false, true, Option.none, Option.none, false,
   some "src/main.ts", Option.none, Option.none⟩

/-- Concrete build options with the service worker requested, no watch. -/
def optsSw : BuildOptions :=
  ⟨"dist", false, false, true, false, Option.none, Option.none, false,
   some "src/main.ts", Option.none, Option.none⟩

/-- Concrete build options with watch and the service worker both requested. -/
def optsWatch : BuildOptions :=
  ⟨"dist", false, true, true, false, Option.none, Option.none, false,
   some "src/main.ts", Option.none, Option.none⟩

/-- A concrete environment where every external step succeeds. -/
def envOk : ExternalEnv := ⟨wsW, 1, Except.ok (), fun _ => ⟨true⟩, true⟩

/-- A concrete environment where only the service-worker augmentation rejects. -/
def envSwFail : ExternalEnv := ⟨wsW, 1, Except.ok (), fun _ => ⟨true⟩, false⟩

/-- A concrete environment whose workspace has no default project. -/
def envNoDefault : ExternalEnv := ⟨wsNoDefault, 1, Except.ok (), fun _ => ⟨true⟩, true⟩

/-- Concrete formatters for the logging witnesses. -/
def fmtsW : StatsFormatters :=
  ⟨fun _ _ => "summary", fun _ _ => "warnings", fun _ _ => "errors"⟩

/-- A concrete stats object reporting warnings but no errors. -/
def statsW : WebpackStats := ⟨fun _ => ⟨0⟩, fun _ => "full", true, false⟩

/-- A concrete logging configuration. -/
def logCfgW : LoggingConfig := ⟨⟨0⟩⟩

/-- The entries the callback emits at the concrete logging inputs. -/
def entriesW : List LogEntry := [⟨.info, "summary"⟩, ⟨.warn, "warnings"⟩]

/-- The service-worker call issued at the concrete orchestrator inputs. -/
def swCallW : SwCall := ⟨"/ws", "/ws/app-root", "/ws/dist", "/", Option.none⟩

/-! ### Theorems -/

/-- C5: `getCompilerConfig` returns the AOT fragment when `main` or `polyfills`
is set and AOT is requested, the non-AOT fragment when `main` or `polyfills` is
set and AOT is not requested, and the empty fragment when neither `main` nor
`polyfills` is set, regardless of the AOT flag. -/
theorem getCompilerConfig_cases (wco : WebpackConfigOptions) :
    ((strOptTruthy wco.buildOptions.main || strOptTruthy wco.buildOptions.polyfills) = true →
      wco.buildOptions.aot = true →
      getCompilerConfig wco = getAotConfig wco)
    ∧ ((strOptTruthy wco.buildOptions.main || strOptTruthy wco.buildOptions.polyfills) = true →
      wco.buildOptions.aot = false →
      getCompilerConfig wco = getNonAotConfig wco)
    ∧ ((strOptTruthy wco.buildOptions.main || strOptTruthy wco.buildOptions.polyfills) = false →
      getCompilerConfig wco = ConfigFragment.empty) := by
  refine ⟨fun hset haot => ?_, fun hset haot => ?_, fun hset => ?_⟩
  · simp [getCompilerConfig, hset, haot]
  · simp [getCompilerConfig, hset, haot]
  · simp [getCompilerConfig, hset]

/-- Witness for C5 at concrete option records, one per case. -/
theorem getCompilerConfig_cases_witness :
    getCompilerConfig wcoAot = getAotConfig wcoAot
    ∧ getCompilerConfig wcoJit = getNonAotConfig wcoJit
    ∧ getCompilerConfig wcoBare = ConfigFragment.empty :=
  ⟨(getCompilerConfig_cases wcoAot).1 (by decide) rfl,
   (getCompilerConfig_cases wcoJit).2.1 (by decide) rfl,
   (getCompilerConfig_cases wcoBare).2.2 (by decide)⟩

/-- C7: with no analytics sink in the context, the analytics entry contributed
to the assembled fragment list is the empty fragment, for every build-option
set: `getAnalyticsConfig` returns `{}` and the assembled list's analytics slot
(index 4) holds that empty fragment. -/
theorem getAnalyticsConfig_no_sink (wco : WebpackConfigOptions)
    (context : BuilderContext) (h : context.analytics = Option.none) :
    getAnalyticsConfig wco context = ConfigFragment.empty
    ∧ (browserConfigFragments context wco).get? 4 = some ConfigFragment.empty := by
  constructor
  · simp [getAnalyticsConfig, h]
  · simp [browserConfigFragments, getAnalyticsConfig, h]

/-- Witness for C7 at a concrete context and option record. -/
theorem getAnalyticsConfig_no_sink_witness :
    getAnalyticsConfig wcoAot ctxNoSink = ConfigFragment.empty
    ∧ (browserConfigFragments ctxNoSink wcoAot).get? 4 = some ConfigFragment.empty :=
  getAnalyticsConfig_no_sink wcoAot ctxNoSink rfl

/-- C8: the logging callback never throws: for every formatter set, verbosity,
stats object and configuration, its `Except` translation completes without a
failure, so a failure inside the callback cannot abort a build. -/
theorem createBrowserLoggingCallback_no_throw (fmts : StatsFormatters)
    (verbose : Bool) (stats : WebpackStats) (config : LoggingConfig) :
    isOkE (createBrowserLoggingCallback fmts verbose stats config) = true := by
  simp [createBrowserLoggingCallback, isOkE]

/-- C9: the callback emits exactly one info-level entry, carrying the full raw
statistics text when verbose and the condensed summary otherwise; and,
independently of verbosity, exactly one warning-level entry (the warnings
summary) when the stats report warnings and none otherwise, and exactly one
error-level entry (the errors summary) when the stats report errors and none
otherwise. -/
theorem createBrowserLoggingCallback_emissions (fmts : StatsFormatters)
    (verbose : Bool) (stats : WebpackStats) (config : LoggingConfig)
    (entries : List LogEntry)
    (h : createBrowserLoggingCallback fmts verbose stats config = .ok entries) :
    atLevel .info entries
      = [⟨.info, if verbose then stats.toStr config.stats
          else fmts.statsToString (stats.toJson config.stats) config.stats⟩]
    ∧ atLevel .warn entries
      = (if stats.hasWarnings
          then [⟨.warn, fmts.statsWarningsToString (stats.toJson config.stats) config.stats⟩]
          else [])
    ∧ atLevel .error entries
      = (if stats.hasErrors
          then [⟨.error, fmts.statsErrorsToString (stats.toJson config.stats) config.stats⟩]
          else []) := by
  simp only [createBrowserLoggingCallback, Except.ok.injEq] at h
  subst h
  cases hv : verbose <;> cases hw : stats.hasWarnings <;> cases he : stats.hasErrors <;>
    exact ⟨rfl, rfl, rfl⟩

/-- Witness for C9 at a concrete formatter set and stats object (non-verbose,
warnings present, no errors). -/
theorem createBrowserLoggingCallback_emissions_witness :
    createBrowserLoggingCallback fmtsW false statsW logCfgW = .ok entriesW
    ∧ (atLevel .info entriesW = [⟨.info, "summary"⟩]
       ∧ atLevel .warn entriesW = [⟨.warn, "warnings"⟩]
       ∧ atLevel .error entriesW = []) :=
  ⟨rfl, createBrowserLoggingCallback_emissions fmtsW false statsW logCfgW entriesW rfl⟩

/-- Helper: `compileAndEmit` either throws the resolution error with an empty
compile trace, or emits, with the trace branch determined by the
service-worker condition. -/
theorem compileAndEmit_shape (options : BuildOptions) (context : BuilderContext)
    (transforms : Transforms) (env : ExternalEnv) (workspace : Workspace)
    (config : List (List ConfigFragment)) :
    (resolveProjectName context workspace = Option.none
      ∧ compileAndEmit options context transforms env workspace config
        = (.thrown .noProject,
           ⟨options.deleteOutputPath, some config.length, [], Option.none, Option.none⟩))
    ∨ (∃ projectName, resolveProjectName context workspace = some projectName
      ∧ ((aggregateEvents ((List.range config.length).map env.runWebpack)).success
            && !options.watch && options.serviceWorker) = true
      ∧ compileAndEmit options context transforms env workspace config
        = (.emitted (applyOutputTransform transforms (mkOutput env.swOk context options)),
           ⟨options.deleteOutputPath, some config.length,
            (List.range config.length).map env.runWebpack,
            some (aggregateEvents ((List.range config.length).map env.runWebpack)).success,
            some ⟨normalizeP context.workspaceRoot,
                  resolvePath workspace.root (normalizeP (workspace.projectRoot projectName)),
                  resolvePath (normalizeP context.workspaceRoot) (normalizeP options.outputPath),
                  jsStrOr options.baseHref "/", options.ngswConfigPath⟩⟩))
    ∨ (∃ projectName, resolveProjectName context workspace = some projectName
      ∧ ((aggregateEvents ((List.range config.length).map env.runWebpack)).success
            && !options.watch && options.serviceWorker) = false
      ∧ compileAndEmit options context transforms env workspace config
        = (.emitted (applyOutputTransform transforms
            (mkOutput (aggregateEvents ((List.range config.length).map env.runWebpack)).success
              context options)),
           ⟨options.deleteOutputPath, some config.length,
            (List.range config.length).map env.runWebpack,
            some (aggregateEvents ((List.range config.length).map env.runWebpack)).success,
            Option.none⟩)) := by
  cases hres : resolveProjectName context workspace with
  | none =>
      exact Or.inl ⟨rfl, by simp [compileAndEmit, hres]⟩
  | some projectName =>
      cases hcond : ((aggregateEvents ((List.range config.length).map env.runWebpack)).success
          && !options.watch && options.serviceWorker) with
      | true =>
          exact Or.inr (Or.inl ⟨projectName, rfl, rfl,
            by simp [compileAndEmit, hres, hcond]⟩)
      | false =>
          exact Or.inr (Or.inr ⟨projectName, rfl, rfl,
            by simp [compileAndEmit, hres, hcond]⟩)

/-- Helper: `buildWebpackBrowser` either throws during configuration with a
fully empty trace, or throws the clean-step error before compiling, or reduces
to `compileAndEmit` on some configuration list. -/
theorem buildWebpackBrowser_shape (options : BuildOptions) (context : BuilderContext)
    (transforms : Transforms) (env : ExternalEnv) :
    (resolveProjectName context env.workspace = Option.none
      ∧ buildWebpackBrowser options context transforms env
        = (.thrown .noProject, ⟨false, Option.none, [], Option.none, Option.none⟩))
    ∨ (∃ er, (if options.deleteOutputPath then env.cleanResult else Except.ok ())
          = Except.error er
      ∧ buildWebpackBrowser options context transforms env
        = (.thrown er,
           ⟨options.deleteOutputPath, Option.none, [], Option.none, Option.none⟩))
    ∨ (∃ config, buildWebpackBrowser options context transforms env
        = compileAndEmit options context transforms env env.workspace config) := by
  cases hres : resolveProjectName context env.workspace with
  | none =>
      refine Or.inl ⟨rfl, ?_⟩
      simp [buildWebpackBrowser, buildBrowserWebpackConfigFromContext,
            generateBrowserWebpackConfigFromContext, hres]
  | some projectName =>
      cases hclean : (if options.deleteOutputPath then env.cleanResult else Except.ok ()) with
      | error er =>
          refine Or.inr (Or.inl ⟨er, rfl, ?_⟩)
          simp [buildWebpackBrowser, buildBrowserWebpackConfigFromContext,
                generateBrowserWebpackConfigFromContext, hres, hclean]
      | ok u =>
          refine Or.inr (Or.inr ⟨?_, ?_⟩)
          · exact
              match transforms.config with
              | some f =>
                  (List.replicate env.numVariants
                    (browserConfigFragments context
                      ⟨options, resolvePath env.workspace.root
                        (normalizeP (env.workspace.projectRoot projectName))⟩)).map
                    (f env.workspace)
              | none =>
                  List.replicate env.numVariants
                    (browserConfigFragments context
                      ⟨options, resolvePath env.workspace.root
                        (normalizeP (env.workspace.projectRoot projectName))⟩)
          · cases htr : transforms.config with
            | some f =>
                simp [buildWebpackBrowser, buildBrowserWebpackConfigFromContext,
                      generateBrowserWebpackConfigFromContext, hres, hclean, htr]
            | none =>
                simp [buildWebpackBrowser, buildBrowserWebpackConfigFromContext,
                      generateBrowserWebpackConfigFromContext, hres, hclean, htr]

/-- C1: whenever the pipeline reaches the aggregation stage, the aggregate
success flag is true iff every collected build event reports success (so one
false event makes it false), and exactly one build event was collected per
configuration entry. -/
theorem buildWebpackBrowser_aggregate_iff (options : BuildOptions)
    (context : BuilderContext) (transforms : Transforms) (env : ExternalEnv)
    (s : Bool)
    (h : ((buildWebpackBrowser options context transforms env).2).aggregate = some s) :
    (s = true ↔
      ∀ e ∈ ((buildWebpackBrowser options context transforms env).2).buildEvents,
        e.success = true)
    ∧ ((buildWebpackBrowser options context transforms env).2).configCount
        = some ((buildWebpackBrowser options context transforms env).2).buildEvents.length := by
  rcases buildWebpackBrowser_shape options context transforms env with
    ⟨-, heq⟩ | ⟨er, -, heq⟩ | ⟨config, heq⟩
  · rw [heq] at h; simp at h
  · rw [heq] at h; simp at h
  · rw [heq] at h ⊢
    rcases compileAndEmit_shape options context transforms env env.workspace config with
      ⟨-, heq2⟩ | ⟨pn, -, -, heq2⟩ | ⟨pn, -, -, heq2⟩
    · rw [heq2] at h; simp at h
    · rw [heq2] at h ⊢
      obtain rfl :
          (aggregateEvents ((List.range config.length).map env.runWebpack)).success = s := by
        simpa using h
      refine ⟨?_, by simp⟩
      simp [aggregateEvents, List.all_eq_true]
    · rw [heq2] at h ⊢
      obtain rfl :
          (aggregateEvents ((List.range config.length).map env.runWebpack)).success = s := by
        simpa using h
      refine ⟨?_, by simp⟩
      simp [aggregateEvents, List.all_eq_true]

/-- Witness for C1 at a concrete invocation where the single build event
succeeds. -/
theorem buildWebpackBrowser_aggregate_iff_witness :
    ((buildWebpackBrowser optsPlain ctxNoSink Transforms.none envOk).2).aggregate = some true
    ∧ ((true = true ↔
        ∀ e ∈ ((buildWebpackBrowser optsPlain ctxNoSink Transforms.none envOk).2).buildEvents,
          e.success = true)
      ∧ ((buildWebpackBrowser optsPlain ctxNoSink Transforms.none envOk).2).configCount
          = some ((buildWebpackBrowser optsPlain ctxNoSink Transforms.none envOk).2).buildEvents.length) :=
  ⟨rfl, buildWebpackBrowser_aggregate_iff optsPlain ctxNoSink Transforms.none envOk true rfl⟩

/-- C2: when every compile invocation succeeds, watch is off, the service
worker is requested and its augmentation rejects, the pipeline emits (does not
propagate a rejection) a final record with `success = false`. -/
theorem buildWebpackBrowser_sw_failure_caught (options : BuildOptions)
    (context : BuilderContext) (transforms : Transforms) (env : ExternalEnv)
    (hres : (resolveProjectName context env.workspace).isSome = true)
    (hclean : env.cleanResult = Except.ok ())
    (hev : ∀ i, (env.runWebpack i).success = true)
    (hwatch : options.watch = false)
    (hsw : options.serviceWorker = true)
    (hfail : env.swOk = false)
    (hout : transforms.output = Option.none) :
    (buildWebpackBrowser options context transforms env).1
      = Outcome.emitted ⟨false, pathResolve context.workspaceRoot options.outputPath⟩ := by
  rcases buildWebpackBrowser_shape options context transforms env with
    ⟨hnone, heq⟩ | ⟨er, hcl, heq⟩ | ⟨config, heq⟩
  · rw [hnone] at hres; simp at hres
  · rw [hclean] at hcl
    split at hcl <;> simp at hcl
  · rw [heq]
    rcases compileAndEmit_shape options context transforms env env.workspace config with
      ⟨hnone, heq2⟩ | ⟨pn, -, hcond, heq2⟩ | ⟨pn, -, hcond, heq2⟩
    · rw [hnone] at hres; simp at hres
    · rw [heq2]
      simp [applyOutputTransform, hout, mkOutput, hfail]
    · exfalso
      have hall :
          (aggregateEvents ((List.range config.length).map env.runWebpack)).success = true := by
        simp only [aggregateEvents, List.all_eq_true]
        intro e he
        obtain ⟨i, -, rfl⟩ := List.mem_map.mp he
        exact hev i
      rw [hall, hwatch, hsw] at hcond
      simp at hcond

/-- Witness for C2 at a concrete invocation whose only external failure is the
service-worker augmentation. -/
theorem buildWebpackBrowser_sw_failure_caught_witness :
    (buildWebpackBrowser optsSw ctxNoSink Transforms.none envSwFail).1
      = Outcome.emitted ⟨false, pathResolve "/ws" "dist"⟩ :=
  buildWebpackBrowser_sw_failure_caught optsSw ctxNoSink Transforms.none envSwFail
    rfl rfl (fun _ => rfl) rfl rfl rfl rfl

/-- C3: with no target in the context and no default project in the workspace,
the pipeline throws the resolution error during configuration: the clean step
is never invoked, no configuration list is assembled, no build invocation is
issued and no aggregation happens. -/
theorem buildWebpackBrowser_no_project_aborts (options : BuildOptions)
    (context : BuilderContext) (transforms : Transforms) (env : ExternalEnv)
    (htarget : context.target = Option.none)
    (hdefault : env.workspace.defaultProjectName = Option.none) :
    (buildWebpackBrowser options context transforms env).1
        = Outcome.thrown BuildError.noProject
    ∧ ((buildWebpackBrowser options context transforms env).2).cleanInvoked = false
    ∧ ((buildWebpackBrowser options context transforms env).2).configCount = Option.none
    ∧ ((buildWebpackBrowser options context transforms env).2).buildEvents = []
    ∧ ((buildWebpackBrowser options context transforms env).2).aggregate = Option.none := by
  have hres : resolveProjectName context env.workspace = Option.none := by
    simp [resolveProjectName, htarget, hdefault, strOptTruthy]
  have heq : buildWebpackBrowser options context transforms env
      = (.thrown .noProject, ⟨false, Option.none, [], Option.none, Option.none⟩) := by
    simp [buildWebpackBrowser, buildBrowserWebpackConfigFromContext,
          generateBrowserWebpackConfigFromContext, hres]
  rw [heq]
  exact ⟨rfl, rfl, rfl, rfl, rfl⟩

/-- Witness for C3 at a concrete invocation with neither target nor default
project, with output deletion requested. -/
theorem buildWebpackBrowser_no_project_aborts_witness :
    (buildWebpackBrowser optsDel ctxNoTarget Transforms.none envNoDefault).1
        = Outcome.thrown BuildError.noProject
    ∧ ((buildWebpackBrowser optsDel ctxNoTarget Transforms.none envNoDefault).2).cleanInvoked = false
    ∧ ((buildWebpackBrowser optsDel ctxNoTarget Transforms.none envNoDefault).2).configCount = Option.none
    ∧ ((buildWebpackBrowser optsDel ctxNoTarget Transforms.none envNoDefault).2).buildEvents = []
    ∧ ((buildWebpackBrowser optsDel ctxNoTarget Transforms.none envNoDefault).2).aggregate = Option.none :=
  buildWebpackBrowser_no_project_aborts optsDel ctxNoTarget Transforms.none envNoDefault
    rfl rfl

/-- C4: with watch mode requested, the service-worker augmentation is never
invoked, whatever the other options, the context and the external outcomes. -/
theorem buildWebpackBrowser_watch_no_sw (options : BuildOptions)
    (context : BuilderContext) (transforms : Transforms) (env : ExternalEnv)
    (hwatch : options.watch = true) :
    ((buildWebpackBrowser options context transforms env).2).swCall = Option.none := by
  rcases buildWebpackBrowser_shape options context transforms env with
    ⟨-, heq⟩ | ⟨er, -, heq⟩ | ⟨config, heq⟩
  · rw [heq]
  · rw [heq]
  · rw [heq]
    rcases compileAndEmit_shape options context transforms env env.workspace config with
      ⟨-, heq2⟩ | ⟨pn, -, hcond, heq2⟩ | ⟨pn, -, hcond, heq2⟩
    · rw [heq2]
    · exfalso
      rw [hwatch] at hcond
      simp at hcond
    · rw [heq2]

/-- Witness for C4 at a concrete invocation with watch and the service worker
both requested and every build succeeding. -/
theorem buildWebpackBrowser_watch_no_sw_witness :
    ((buildWebpackBrowser optsWatch ctxNoSink Transforms.none envOk).2).swCall = Option.none :=
  buildWebpackBrowser_watch_no_sw optsWatch ctxNoSink Transforms.none envOk rfl

/-- C6: with no caller output transform, every emitted final record carries
`path.resolve(workspaceRoot, outputPath)` as its output path, whether its
success flag is true or false. -/
theorem buildWebpackBrowser_outputPath (options : BuildOptions)
    (context : BuilderContext) (transforms : Transforms) (env : ExternalEnv)
    (out : BrowserBuilderOutput)
    (hout : transforms.output = Option.none)
    (h : (buildWebpackBrowser options context transforms env).1 = Outcome.emitted out) :
    out.outputPath = pathResolve context.workspaceRoot options.outputPath := by
  rcases buildWebpackBrowser_shape options context transforms env with
    ⟨-, heq⟩ | ⟨er, -, heq⟩ | ⟨config, heq⟩
  · rw [heq] at h; simp at h
  · rw [heq] at h; simp at h
  · rw [heq] at h
    rcases compileAndEmit_shape options context transforms env env.workspace config with
      ⟨-, heq2⟩ | ⟨pn, -, -, heq2⟩ | ⟨pn, -, -, heq2⟩
    · rw [heq2] at h; simp at h
    · rw [heq2] at h
      simp only [applyOutputTransform, hout] at h
      simp at h
      rw [← h]
      simp [mkOutput]
    · rw [heq2] at h
      simp only [applyOutputTransform, hout] at h
      simp at h
      rw [← h]
      simp [mkOutput]

/-- Witness for C6 at a concrete successful invocation. -/
theorem buildWebpackBrowser_outputPath_witness :
    (⟨true, "/ws/dist"⟩ : BrowserBuilderOutput).outputPath = pathResolve "/ws" "dist" :=
  buildWebpackBrowser_outputPath optsPlain ctxNoSink Transforms.none envOk
    ⟨true, "/ws/dist"⟩ rfl rfl

/-- C10: whenever the service-worker augmenter is invoked, its base href
argument is `'/'` when the `baseHref` option is unset or empty, and the
configured value otherwise. -/
theorem buildWebpackBrowser_sw_baseHref (options : BuildOptions)
    (context : BuilderContext) (transforms : Transforms) (env : ExternalEnv)
    (call : SwCall)
    (h : ((buildWebpackBrowser options context transforms env).2).swCall = some call) :
    ((options.baseHref = Option.none ∨ options.baseHref = some "") →
      call.baseHref = "/")
    ∧ (∀ s, options.baseHref = some s → s ≠ "" → call.baseHref = s) := by
  rcases buildWebpackBrowser_shape options context transforms env with
    ⟨-, heq⟩ | ⟨er, -, heq⟩ | ⟨config, heq⟩
  · rw [heq] at h; simp at h
  · rw [heq] at h; simp at h
  · rw [heq] at h
    rcases compileAndEmit_shape options context transforms env env.workspace config with
      ⟨-, heq2⟩ | ⟨pn, -, -, heq2⟩ | ⟨pn, -, -, heq2⟩
    · rw [heq2] at h; simp at h
    · rw [heq2] at h
      simp only [Option.some.injEq] at h
      constructor
      · rintro (hb | hb) <;> rw [← h] <;> simp [jsStrOr, hb]
      · intro s hb hs
        rw [← h]
        simp [jsStrOr, hb, hs]
    · rw [heq2] at h; simp at h

/-- Witness for C10 at a concrete invocation with no configured base href. -/
theorem buildWebpackBrowser_sw_baseHref_witness :
    ((optsSw.baseHref = Option.none ∨ optsSw.baseHref = some "") →
      swCallW.baseHref = "/")
    ∧ (∀ s, optsSw.baseHref = some s → s ≠ "" → swCallW.baseHref = s) :=
  buildWebpackBrowser_sw_baseHref optsSw ctxNoSink Transforms.none envOk swCallW rfl

end AngularBrowser
